import Mathlib

/-!
Verification of the cred-tool runner-provisioning program.

Shallow embedding of the single source file of the repository
(a Rust CLI that resolves per-stage GitHub App credentials, per-target
runner labels and a fresh runner name, then exchanges them for a
just-in-time runner registration token).

Effects are modelled explicitly: the random number generator is a stream
of byte draws, the clock is a calendar-date parameter, the filesystem,
the key parser and the GitHub API are oracle functions supplied as
arguments.  A Rust panic (the source uses a panicking placeholder for the
Staging stage) is modelled as a distinguished outcome; the Rust runtime
terminates a panicking process with exit code 101.
-/

namespace CredTool

/-- Deployment stage (source: `enum Stage`). -/
inductive Stage where
  | Carl
  | Staging
  | Prod
  deriving DecidableEq, Repr

/-- FPGA target class (source: `enum FpgaTarget`). -/
inductive FpgaTarget where
  | Zcu104
  | Zcu104Nightly
  | Vck190
  deriving DecidableEq, Repr

/-- Embedding of Rust string lowercasing as used by both parsers: every
character is replaced by its lower-case form.  (Over the ASCII keyword
vocabulary of this program this agrees with Rust `str::to_lowercase`.) -/
def toLowercase (s : String) : String :=
  ⟨s.data.map Char.toLower⟩

/-- Source: `impl FromStr for Stage`.  The match is on the lowercased
input; the error message quotes the original input and lists the three
accepted stage names. -/
def Stage.from_str (s : String) : Except String Stage :=
  match toLowercase s with
  | "carl" => .ok .Carl
  | "staging" => .ok .Staging
  | "prod" => .ok .Prod
  | _ => .error ("Invalid stage: \x27" ++ s ++
      "\x27. Must be one of \x27carl\x27, \x27staging\x27, or \x27prod\x27.")

/-- Source: `impl FromStr for FpgaTarget`.  The match is on the
lowercased input; the error message quotes the original input and lists
the three accepted target names. -/
def FpgaTarget.from_str (s : String) : Except String FpgaTarget :=
  match toLowercase s with
  | "zcu104-nightly" => .ok .Zcu104Nightly
  | "zcu104" => .ok .Zcu104
  | "vck190" => .ok .Vck190
  | _ => .error ("Invalid fpga: \x27" ++ s ++
      "\x27. Must be one of \x27zcu104\x27, \x27zcu104-nightly\x27 or \x27vck190\x27.")

/-- Source: `RunnerLabels::new`.  The dry-run flag selects a
"-staging" suffix which only the Vck190 arm uses. -/
def RunnerLabels.new (value : FpgaTarget) (dry_run : Bool) : List String :=
  let sfx := if dry_run then "-staging" else ""
  match value with
  | .Zcu104 => ["caliptra-fpga"]
  | .Zcu104Nightly => ["caliptra-fpga", "caliptra-fpga-nightly"]
  | .Vck190 => ["vck190" ++ sfx]

example : RunnerLabels.new .Vck190 true = ["vck190-staging"] := by rfl
example : RunnerLabels.new .Zcu104Nightly true = ["caliptra-fpga", "caliptra-fpga-nightly"] := by
  decide
example : Stage.from_str "PROD" = .ok .Prod := by rfl
example : Stage.from_str "qa" =
    .error "Invalid stage: \x27qa\x27. Must be one of \x27carl\x27, \x27staging\x27, or \x27prod\x27." := by
  rfl

/-- A calendar date, the value of `Local::now().date_naive()` at the
moment the runner name is generated.  The clock is external, so the date
is a parameter of the embedding. -/
structure NaiveDate where
  year : Nat
  month : Nat
  day : Nat
  deriving DecidableEq, Repr

/-- Modelled from chrono digit formatting: a number below 100 zero-padded
to two digits (the `%m` / `%d` specifiers on valid months and days). -/
def pad2 (n : Nat) : String :=
  ⟨[Nat.digitChar (n / 10), Nat.digitChar (n % 10)]⟩

/-- Modelled from chrono digit formatting: a number below 10000
zero-padded to four digits (the `%Y` specifier on common-era years). -/
def pad4 (n : Nat) : String :=
  ⟨[Nat.digitChar (n / 1000), Nat.digitChar (n / 100 % 10),
    Nat.digitChar (n / 10 % 10), Nat.digitChar (n % 10)]⟩

/-- Source: `now.date_naive().format("%Y-%m-%d")`. -/
def formatYmd (d : NaiveDate) : String :=
  pad4 d.year ++ "-" ++ pad2 d.month ++ "-" ++ pad2 d.day

/-- Source: `format!("{:X}", v)` applied to a value below 16 — one
upper-case hexadecimal digit (the default arm is unreachable in use,
every argument is reduced modulo 16 first). -/
def hexUpperDigitChar (n : Nat) : Char :=
  match n with
  | 0 => '0' | 1 => '1' | 2 => '2' | 3 => '3'
  | 4 => '4' | 5 => '5' | 6 => '6' | 7 => '7'
  | 8 => '8' | 9 => '9' | 10 => 'A' | 11 => 'B'
  | 12 => 'C' | 13 => 'D' | 14 => 'E' | 15 => 'F'
  | _ => '0'

/-- Source: the random hexadecimal part of `RunnerName::new` — sixteen
draws of `rng.random::<u8>() % 16`, each formatted as one upper-case hex
digit, collected into a string.  The generator is modelled as a stream
`rng` of byte draws (`% 256` embeds the `u8` range of each draw). -/
def randHex (rng : Nat → Nat) : String :=
  ⟨(List.range 16).map (fun i => hexUpperDigitChar (rng i % 256 % 16))⟩

/-- Source: board-type token of `RunnerName::new` — the board family,
shared by the stable and nightly variants of the same board. -/
def boardType (fpga_type : FpgaTarget) : String :=
  match fpga_type with
  | .Zcu104 | .Zcu104Nightly => "caliptra-fpga"
  | .Vck190 => "vck190"

/-- Source: `RunnerName::new`.  The rng stream and the current date are
external inputs of the embedding. -/
def RunnerName.new (fpga_type : FpgaTarget) (identifier location : String)
    (rng : Nat → Nat) (today : NaiveDate) : String :=
  let board_type := boardType fpga_type
  let current_date := formatYmd today
  let rand_hex := randHex rng
  board_type ++ "-" ++ location ++ "-" ++ identifier ++ "-" ++ rand_hex ++ "-" ++ current_date

example : randHex (fun i => i) = "0123456789ABCDEF" := by rfl
example : RunnerName.new .Vck190 "5" "kir" (fun i => i) ⟨2026, 10, 12⟩ =
    "vck190-kir-5-0123456789ABCDEF-2026-10-12" := by rfl

/-- Source: `struct Args`, the parsed command line. -/
structure Args where
  stage : Stage
  fpga_target : FpgaTarget
  fpga_identifier : String
  location : String
  key_path : String
  dry_run : Bool
  deriving DecidableEq, Repr

/-- Source: `struct CaliptraCiInfo`. -/
structure CaliptraCiInfo where
  github_app_id : Nat
  github_installation_id : Nat
  github_org_name : String
  key_path : String
  deriving DecidableEq, Repr

/-- Source: `impl From<Args> for CaliptraCiInfo`.  The `Staging` arm of
the source is `todo!(...)`, an unconditional panic; a panicking
conversion never produces a value, so it is modelled as `none`. -/
def CaliptraCiInfo.fromArgs (value : Args) : Option CaliptraCiInfo :=
  match value.stage with
  | .Carl => some { github_app_id := 1160975, github_installation_id := 61798278,
                    github_org_name := "clundin25-testorg", key_path := value.key_path }
  | .Staging => none
  | .Prod => some { github_app_id := 379559, github_installation_id := 40993215,
                    github_org_name := "chipsalliance", key_path := value.key_path }

/-- Abstract RSA signing key, the result of
`jsonwebtoken::EncodingKey::from_rsa_pem` (opaque to this program). -/
structure EncodingKey where
  raw : List Nat
  deriving DecidableEq, Repr

/-- The observable state of an `octocrab::Octocrab` client as this
program uses it: GitHub App id, signing key, and the optional
installation narrowing.  `builder().app(id, key).build()` yields a
client with no installation set; `client.installation(id)` records the
id without contacting the API (its only failure mode, a client not in
app-auth mode, cannot occur here). -/
structure OctoClient where
  app_id : Nat
  key : EncodingKey
  installation_id : Option Nat
  deriving DecidableEq, Repr

/-- The external effects used by `OctocrabWrapper::new`: `std::fs::read`
and `EncodingKey::from_rsa_pem`, as oracles. -/
structure GithubEnv where
  fs_read : String → Except String (List Nat)
  from_rsa_pem : List Nat → Except String EncodingKey

/-- The error kinds `OctocrabWrapper::new` can propagate (both reach the
caller through `?` as `anyhow` errors; the kind records which underlying
operation failed). -/
inductive CredError where
  | ioError (e : String)
  | keyParseError (e : String)
  deriving DecidableEq, Repr

/-- Source: `struct OctocrabWrapper`. -/
structure OctocrabWrapper where
  github_org_name : String
  octocrab : OctoClient
  deriving DecidableEq, Repr

/-- Source: `OctocrabWrapper::new` — read the key file, parse it as an
RSA PEM signing key, build an app-authenticated client and optimistically
narrow it to the known installation id. -/
def OctocrabWrapper.new (env : GithubEnv) (info : CaliptraCiInfo) :
    Except CredError OctocrabWrapper :=
  match env.fs_read info.key_path with
  | .error e => .error (.ioError e)
  | .ok bytes =>
    match env.from_rsa_pem bytes with
    | .error e => .error (.keyParseError e)
    | .ok key =>
      let octocrab : OctoClient :=
        { app_id := info.github_app_id, key := key, installation_id := none }
      let octocrab := { octocrab with installation_id := some info.github_installation_id }
      .ok { github_org_name := info.github_org_name, octocrab := octocrab }

/-- One request to the "create an organization just-in-time runner
configuration" API operation, with every field the program sends. -/
structure JitCall where
  org : String
  runner_name : String
  runner_group_id : Nat
  labels : List String
  deriving DecidableEq, Repr

/-- The response of the JIT-config API operation.  Besides the encoded
JIT configuration the real response carries further fields (the runner
record); `runner_id` stands for those, and the program must discard it. -/
structure JitRunnerConfig where
  encoded_jit_config : String
  runner_id : Nat
  deriving DecidableEq, Repr

/-- Source: `OctocrabWrapper::runner_jit_token`.  The API is an oracle
from requests to responses; the second component of the result is the
trace of requests issued (the source performs exactly one `send`). -/
def OctocrabWrapper.runner_jit_token (api : JitCall → Except String JitRunnerConfig)
    (self : OctocrabWrapper) (name : String) (labels : List String) :
    Except String String × List JitCall :=
  let default_runner_group := 1
  let call : JitCall := { org := self.github_org_name, runner_name := name,
                          runner_group_id := default_runner_group, labels := labels }
  match api call with
  | .error e => (.error e, [call])
  | .ok token => (.ok token.encoded_jit_config, [call])

/-- Rust `{:?}` debug form of a stage (derived `Debug`). -/
def stageDebug : Stage → String
  | .Carl => "Carl"
  | .Staging => "Staging"
  | .Prod => "Prod"

/-- Message carried to stderr when an error propagates out of `main`
through `Result` (the runtime prints the error and fails the process). -/
def credErrorMsg : CredError → String
  | .ioError e => "Error: " ++ e
  | .keyParseError e => "Error: " ++ e

/-- Observable outcome of one process invocation: exit code, the lines
printed to stdout and to stderr, and whether the process ended in a
panic.  The Rust runtime terminates a panicking process with exit
code 101; `main` returning an error exits with code 1. -/
structure MainOutcome where
  exit_code : Nat
  stdout : List String
  stderr : List String
  panicked : Bool
  deriving DecidableEq, Repr

/-- Source: `main`.  Logs the stage to stderr, derives the runner name
and labels, converts the arguments to stage credentials (a panic for
`Staging`), builds the client, performs the token exchange, and prints
the token to stdout with exit 0 or a diagnostic to stderr with exit 1. -/
def mainRun (args : Args) (env : GithubEnv) (api : JitCall → Except String JitRunnerConfig)
    (rng : Nat → Nat) (today : NaiveDate) : MainOutcome :=
  let stderr0 := ["Running for stage: " ++ stageDebug args.stage]
  let name := RunnerName.new args.fpga_target args.fpga_identifier args.location rng today
  let labels := RunnerLabels.new args.fpga_target args.dry_run
  match CaliptraCiInfo.fromArgs args with
  | none =>
      { exit_code := 101, stdout := [],
        stderr := stderr0 ++
          ["thread panicked: not yet implemented: TODO: Set environment variables for staging"],
        panicked := true }
  | some info =>
    match OctocrabWrapper.new env info with
    | .error e =>
        { exit_code := 1, stdout := [], stderr := stderr0 ++ [credErrorMsg e],
          panicked := false }
    | .ok github =>
      match (OctocrabWrapper.runner_jit_token api github name labels).1 with
      | .ok jit_config =>
          { exit_code := 0, stdout := [jit_config], stderr := stderr0, panicked := false }
      | .error e =>
          { exit_code := 1, stdout := [],
            stderr := stderr0 ++ ["Failed to create runner config due to " ++ e],
            panicked := false }

/-- Concrete argument records used to evaluate the theorems on closed
inputs. -/
def argsCarl : Args :=
  { stage := .Carl, fpga_target := .Vck190, fpga_identifier := "5",
    location := "kir", key_path := "key.pem", dry_run := false }

/-- Concrete Prod-stage arguments. -/
def argsProd : Args :=
  { stage := .Prod, fpga_target := .Zcu104, fpga_identifier := "7",
    location := "kir", key_path := "key.pem", dry_run := false }

/-- Concrete Staging-stage arguments. -/
def argsStaging : Args :=
  { stage := .Staging, fpga_target := .Zcu104, fpga_identifier := "1",
    location := "kir", key_path := "key.pem", dry_run := false }

/-! ## Helper lemmas -/

theorem char_toLower_idem (c : Char) : c.toLower.toLower = c.toLower := by
  by_cases h : c.toNat ≥ 65 ∧ c.toNat ≤ 90
  · have hv : (c.toNat + 32).isValidChar := Or.inl (by omega)
    have h2 : (c.toLower).toNat = c.toNat + 32 := by
      simp only [Char.toLower]
      rw [if_pos h, Char.ofNat, dif_pos hv]
      rfl
    have h3 : ¬((c.toLower).toNat ≥ 65 ∧ (c.toLower).toNat ≤ 90) := by omega
    conv_lhs => rw [Char.toLower]
    rw [if_neg h3]
  · have h1 : c.toLower = c := by
      simp only [Char.toLower]
      rw [if_neg h]
    rw [h1, h1]

theorem toLowercase_idem (s : String) : toLowercase (toLowercase s) = toLowercase s := by
  simp only [toLowercase, List.map_map]
  have hc : (Char.toLower ∘ Char.toLower) = Char.toLower := funext char_toLower_idem
  rw [hc]

/-! ## The claims -/

/-- C1: resolving the Staging stage (recognized but with no implemented
credential mapping) is a defined, hard failure: the stage-to-credentials
conversion never produces any credential record for Staging — in
particular not the Carl record nor the Prod record — and never silently succeeds. -/
theorem staging_resolution_is_hard_failure (t : FpgaTarget) (i l kp : String) (d : Bool) :
    CaliptraCiInfo.fromArgs ⟨Stage.Staging, t, i, l, kp, d⟩ = none ∧
    ∀ c : CaliptraCiInfo, CaliptraCiInfo.fromArgs ⟨Stage.Staging, t, i, l, kp, d⟩ ≠ some c := by
  refine ⟨rfl, ?_⟩
  intro c h
  simp [CaliptraCiInfo.fromArgs] at h

theorem staging_resolution_is_hard_failure_witness :
    CaliptraCiInfo.fromArgs ⟨Stage.Staging, .Zcu104, "1", "kir", "key.pem", false⟩ = none ∧
    CaliptraCiInfo.fromArgs ⟨Stage.Staging, .Zcu104, "1", "kir", "key.pem", false⟩ ≠
      some ⟨1160975, 61798278, "clundin25-testorg", "key.pem"⟩ :=
  ⟨(staging_resolution_is_hard_failure .Zcu104 "1" "kir" "key.pem" false).1,
   (staging_resolution_is_hard_failure .Zcu104 "1" "kir" "key.pem" false).2 _⟩

/-- C2: any two distinct stages that both resolve to credentials (Carl
and Prod are the only such stages) resolve to distinct organization
names and distinct (app id, installation id) pairs, and the key path of
the resolved credentials is the caller-supplied path unchanged. -/
theorem implemented_stage_credentials_distinct (a1 a2 : Args) (c1 c2 : CaliptraCiInfo)
    (hne : a1.stage ≠ a2.stage)
    (h1 : CaliptraCiInfo.fromArgs a1 = some c1)
    (h2 : CaliptraCiInfo.fromArgs a2 = some c2) :
    c1.github_org_name ≠ c2.github_org_name ∧
    (c1.github_app_id, c1.github_installation_id) ≠
      (c2.github_app_id, c2.github_installation_id) ∧
    c1.key_path = a1.key_path ∧ c2.key_path = a2.key_path := by
  rcases ha : a1.stage with _ | _ | _ <;> rcases hb : a2.stage with _ | _ | _ <;>
    simp only [CaliptraCiInfo.fromArgs, ha, hb, Option.some.injEq,
      reduceCtorEq] at h1 h2
  · exact absurd (ha.trans hb.symm) hne
  · subst h1; subst h2
    exact ⟨by show ("clundin25-testorg" : String) ≠ "chipsalliance"; decide,
           by show ((1160975, 61798278) : Nat × Nat) ≠ (379559, 40993215); decide, rfl, rfl⟩
  · subst h1; subst h2
    exact ⟨by show ("chipsalliance" : String) ≠ "clundin25-testorg"; decide,
           by show ((379559, 40993215) : Nat × Nat) ≠ (1160975, 61798278); decide, rfl, rfl⟩
  · exact absurd (ha.trans hb.symm) hne

theorem implemented_stage_credentials_distinct_witness :
    ("clundin25-testorg" : String) ≠ "chipsalliance" ∧
    ((1160975, 61798278) : Nat × Nat) ≠ (379559, 40993215) ∧
    ("key.pem" : String) = argsCarl.key_path ∧ ("key.pem" : String) = argsProd.key_path :=
  implemented_stage_credentials_distinct argsCarl argsProd
    ⟨1160975, 61798278, "clundin25-testorg", "key.pem"⟩
    ⟨379559, 40993215, "chipsalliance", "key.pem"⟩
    (by decide) (by rfl) (by rfl)

/-- C3: for every FPGA target, the label set with dry_run on and the
label set with dry_run off differ exactly by the "-staging" suffix
transformation when the target supports it (Vck190), and are equal when
it does not (Zcu104 and Zcu104Nightly). -/
theorem dry_run_labels_differ_only_by_staging_suffix (t : FpgaTarget) :
    (t = .Vck190 →
      RunnerLabels.new t true = (RunnerLabels.new t false).map (fun l => l ++ "-staging")) ∧
    (t ≠ .Vck190 → RunnerLabels.new t true = RunnerLabels.new t false) := by
  cases t <;> constructor <;> intro h
  case Zcu104.left => cases h
  case Zcu104.right => rfl
  case Zcu104Nightly.left => cases h
  case Zcu104Nightly.right => rfl
  case Vck190.left => rfl
  case Vck190.right => exact absurd rfl h

theorem dry_run_labels_differ_only_by_staging_suffix_witness :
    RunnerLabels.new .Vck190 true =
      (RunnerLabels.new .Vck190 false).map (fun l => l ++ "-staging") ∧
    RunnerLabels.new .Zcu104 true = RunnerLabels.new .Zcu104 false ∧
    RunnerLabels.new .Zcu104Nightly true = RunnerLabels.new .Zcu104Nightly false :=
  ⟨(dry_run_labels_differ_only_by_staging_suffix .Vck190).1 rfl,
   (dry_run_labels_differ_only_by_staging_suffix .Zcu104).2 (by decide),
   (dry_run_labels_differ_only_by_staging_suffix .Zcu104Nightly).2 (by decide)⟩

/-- C4: the label lookup is total — every target and dry-run combination
yields a nonempty label set — and the target with a nightly variant of
the same board (Zcu104Nightly) receives both the base board label and
the nightly-specific label, in that order, while targets without a
nightly variant receive only their own label(s). -/
theorem target_registry_total_and_nightly_policy (d : Bool) :
    (∀ t, RunnerLabels.new t d ≠ []) ∧
    RunnerLabels.new .Zcu104Nightly d = ["caliptra-fpga", "caliptra-fpga-nightly"] ∧
    RunnerLabels.new .Zcu104 d = ["caliptra-fpga"] ∧
    RunnerLabels.new .Vck190 d = [if d then "vck190-staging" else "vck190"] := by
  cases d <;>
    exact ⟨fun t => by cases t <;> simp [RunnerLabels.new], rfl, rfl, rfl⟩

theorem target_registry_total_and_nightly_policy_witness :
    RunnerLabels.new .Vck190 true ≠ [] ∧
    RunnerLabels.new .Zcu104Nightly false = ["caliptra-fpga", "caliptra-fpga-nightly"] :=
  ⟨(target_registry_total_and_nightly_policy true).1 .Vck190,
   (target_registry_total_and_nightly_policy false).2.1⟩

/-- A character is an upper-case hexadecimal digit. -/
def isHexDigitChar (c : Char) : Bool :=
  "0123456789ABCDEF".data.contains c

/-- The claimed name shape of a formatted date: ten characters, four
digits, a hyphen, two digits, a hyphen, two digits. -/
def isYmdString (s : String) : Prop :=
  s.length = 10 ∧
  (s.data.getD 0 ' ').isDigit = true ∧ (s.data.getD 1 ' ').isDigit = true ∧
  (s.data.getD 2 ' ').isDigit = true ∧ (s.data.getD 3 ' ').isDigit = true ∧
  s.data.getD 4 ' ' = '-' ∧
  (s.data.getD 5 ' ').isDigit = true ∧ (s.data.getD 6 ' ').isDigit = true ∧
  s.data.getD 7 ' ' = '-' ∧
  (s.data.getD 8 ' ').isDigit = true ∧ (s.data.getD 9 ' ').isDigit = true

theorem digitChar_isDigit (n : Nat) (h : n < 10) : (Nat.digitChar n).isDigit = true := by
  have hall : ∀ m : Fin 10, (Nat.digitChar m.val).isDigit = true := by decide
  exact hall ⟨n, h⟩

theorem hexUpperDigitChar_isHex (n : Nat) :
    isHexDigitChar (hexUpperDigitChar (n % 16)) = true := by
  have hall : ∀ m : Fin 16, isHexDigitChar (hexUpperDigitChar m.val) = true := by decide
  exact hall ⟨n % 16, Nat.mod_lt _ (by decide)⟩

theorem randHex_length (rng : Nat → Nat) : (randHex rng).length = 16 := by
  show ((List.range 16).map (fun i => hexUpperDigitChar (rng i % 256 % 16))).length = 16
  simp

theorem randHex_all_hex (rng : Nat → Nat) :
    ∀ c ∈ (randHex rng).data, isHexDigitChar c = true := by
  intro c hc
  have hd : (randHex rng).data =
      (List.range 16).map (fun i => hexUpperDigitChar (rng i % 256 % 16)) := rfl
  rw [hd] at hc
  simp only [List.mem_map] at hc
  obtain ⟨i, _, rfl⟩ := hc
  exact hexUpperDigitChar_isHex (rng i % 256)

theorem formatYmd_shape (d : NaiveDate)
    (hy : d.year < 10000) (hm : d.month < 100) (hd : d.day < 100) :
    isYmdString (formatYmd d) := by
  have hdata : (formatYmd d).data =
      [Nat.digitChar (d.year / 1000), Nat.digitChar (d.year / 100 % 10),
       Nat.digitChar (d.year / 10 % 10), Nat.digitChar (d.year % 10), '-',
       Nat.digitChar (d.month / 10), Nat.digitChar (d.month % 10), '-',
       Nat.digitChar (d.day / 10), Nat.digitChar (d.day % 10)] := rfl
  have hlen : (formatYmd d).length = 10 := by
    show (formatYmd d).data.length = 10
    rw [hdata]
    rfl
  refine ⟨hlen, ?_, ?_, ?_, ?_, ?_, ?_, ?_, ?_, ?_, ?_⟩ <;> rw [hdata]
  · exact digitChar_isDigit _ (by omega)
  · exact digitChar_isDigit _ (Nat.mod_lt _ (by decide))
  · exact digitChar_isDigit _ (Nat.mod_lt _ (by decide))
  · exact digitChar_isDigit _ (Nat.mod_lt _ (by decide))
  · rfl
  · exact digitChar_isDigit _ (by omega)
  · exact digitChar_isDigit _ (Nat.mod_lt _ (by decide))
  · rfl
  · exact digitChar_isDigit _ (by omega)
  · exact digitChar_isDigit _ (Nat.mod_lt _ (by decide))

/-- C5: the generated runner name is exactly the five fields
board-type, location, identifier, nonce and date joined by single
hyphens; the nonce is sixteen hexadecimal characters; the date is in
YYYY-MM-DD shape; and the board-type token is the board family, shared
by the nightly and stable Zcu104 variants. -/
theorem runner_name_format (t : FpgaTarget) (identifier location : String)
    (rng : Nat → Nat) (today : NaiveDate)
    (hy : today.year < 10000) (hm : today.month < 100) (hd : today.day < 100) :
    RunnerName.new t identifier location rng today =
      boardType t ++ "-" ++ location ++ "-" ++ identifier ++ "-" ++
        randHex rng ++ "-" ++ formatYmd today ∧
    (randHex rng).length = 16 ∧
    (∀ c ∈ (randHex rng).data, isHexDigitChar c = true) ∧
    isYmdString (formatYmd today) ∧
    boardType .Zcu104 = "caliptra-fpga" ∧ boardType .Zcu104Nightly = "caliptra-fpga" ∧
    boardType .Vck190 = "vck190" :=
  ⟨rfl, randHex_length rng, randHex_all_hex rng, formatYmd_shape today hy hm hd,
   rfl, rfl, rfl⟩

theorem runner_name_format_witness :
    RunnerName.new .Zcu104Nightly "5" "kir" (fun i => i) ⟨2026, 10, 12⟩ =
      boardType .Zcu104Nightly ++ "-" ++ "kir" ++ "-" ++ "5" ++ "-" ++
        randHex (fun i => i) ++ "-" ++ formatYmd ⟨2026, 10, 12⟩ ∧
    (randHex (fun i => i)).length = 16 ∧
    (∀ c ∈ (randHex (fun i => i)).data, isHexDigitChar c = true) ∧
    isYmdString (formatYmd ⟨2026, 10, 12⟩) ∧
    boardType .Zcu104 = "caliptra-fpga" ∧ boardType .Zcu104Nightly = "caliptra-fpga" ∧
    boardType .Vck190 = "vck190" :=
  runner_name_format .Zcu104Nightly "5" "kir" (fun i => i) ⟨2026, 10, 12⟩
    (by decide) (by decide) (by decide)

/-- A string contains another as a contiguous substring. -/
def strContains (hay needle : String) : Prop :=
  ∃ pre post, hay = pre ++ needle ++ post

theorem strContains_of_splits (P x s y Q Pp Qp : String)
    (hP : P = Pp ++ x) (hQ : Q = y ++ Qp) :
    strContains (P ++ s ++ Q) (x ++ s ++ y) :=
  ⟨Pp, Qp, by rw [hP, hQ]; simp only [String.append_assoc]⟩

theorem strContains_in_last (P s Q y needle z : String) (hQ : Q = y ++ needle ++ z) :
    strContains (P ++ s ++ Q) needle :=
  ⟨P ++ s ++ y, z, by rw [hQ]; simp only [String.append_assoc]⟩

/-- C7: every string whose lowercase form is not an accepted stage name
is rejected by the stage parser, and every string whose lowercase form
is not an accepted target name is rejected by the target parser — both
parsers are pure functions of the string, so this happens before any
credential lookup or network activity — and the failure message quotes
the invalid value and every accepted value. -/
theorem invalid_stage_and_target_rejected (s t : String)
    (hs : toLowercase s ∉ (["carl", "staging", "prod"] : List String))
    (ht : toLowercase t ∉ (["zcu104", "zcu104-nightly", "vck190"] : List String)) :
    (∃ m, Stage.from_str s = .error m ∧ strContains m ("\x27" ++ s ++ "\x27") ∧
      strContains m "\x27carl\x27" ∧ strContains m "\x27staging\x27" ∧
      strContains m "\x27prod\x27") ∧
    (∃ m, FpgaTarget.from_str t = .error m ∧ strContains m ("\x27" ++ t ++ "\x27") ∧
      strContains m "\x27zcu104\x27" ∧ strContains m "\x27zcu104-nightly\x27" ∧
      strContains m "\x27vck190\x27") := by
  have h1 : Stage.from_str s = .error ("Invalid stage: \x27" ++ s ++
      "\x27. Must be one of \x27carl\x27, \x27staging\x27, or \x27prod\x27.") := by
    unfold Stage.from_str
    split
    · next heq => simp [heq] at hs
    · next heq => simp [heq] at hs
    · next heq => simp [heq] at hs
    · rfl
  have h2 : FpgaTarget.from_str t = .error ("Invalid fpga: \x27" ++ t ++
      "\x27. Must be one of \x27zcu104\x27, \x27zcu104-nightly\x27 or \x27vck190\x27.") := by
    unfold FpgaTarget.from_str
    split
    · next heq => simp [heq] at ht
    · next heq => simp [heq] at ht
    · next heq => simp [heq] at ht
    · rfl
  constructor
  · refine ⟨_, h1, ?_, ?_, ?_, ?_⟩
    · exact strContains_of_splits _ "\x27" s "\x27" _ "Invalid stage: "
        ". Must be one of \x27carl\x27, \x27staging\x27, or \x27prod\x27." rfl rfl
    · exact strContains_in_last _ s _ "\x27. Must be one of " "\x27carl\x27"
        ", \x27staging\x27, or \x27prod\x27." rfl
    · exact strContains_in_last _ s _ "\x27. Must be one of \x27carl\x27, "
        "\x27staging\x27" ", or \x27prod\x27." rfl
    · exact strContains_in_last _ s _
        "\x27. Must be one of \x27carl\x27, \x27staging\x27, or " "\x27prod\x27" "." rfl
  · refine ⟨_, h2, ?_, ?_, ?_, ?_⟩
    · exact strContains_of_splits _ "\x27" t "\x27" _ "Invalid fpga: "
        ". Must be one of \x27zcu104\x27, \x27zcu104-nightly\x27 or \x27vck190\x27." rfl rfl
    · exact strContains_in_last _ t _ "\x27. Must be one of " "\x27zcu104\x27"
        ", \x27zcu104-nightly\x27 or \x27vck190\x27." rfl
    · exact strContains_in_last _ t _ "\x27. Must be one of \x27zcu104\x27, "
        "\x27zcu104-nightly\x27" " or \x27vck190\x27." rfl
    · exact strContains_in_last _ t _
        "\x27. Must be one of \x27zcu104\x27, \x27zcu104-nightly\x27 or "
        "\x27vck190\x27" "." rfl

theorem invalid_stage_and_target_rejected_witness :
    (∃ m, Stage.from_str "qa" = .error m ∧ strContains m "\x27qa\x27" ∧
      strContains m "\x27carl\x27" ∧ strContains m "\x27staging\x27" ∧
      strContains m "\x27prod\x27") ∧
    (∃ m, FpgaTarget.from_str "qa" = .error m ∧ strContains m "\x27qa\x27" ∧
      strContains m "\x27zcu104\x27" ∧ strContains m "\x27zcu104-nightly\x27" ∧
      strContains m "\x27vck190\x27") :=
  invalid_stage_and_target_rejected "qa" "qa" (by decide) (by decide)

/-- C10: both parsers are case-insensitive — parsing a string succeeds
with a given value exactly when parsing its lowercase form succeeds with
that value (the error message of a failed parse quotes the original
spelling, but acceptance and the parsed value only depend on the
lowercase form); in particular "PROD" parses to the Prod stage and
"ZCU104-Nightly" parses to the Zcu104Nightly target. -/
theorem parsing_is_case_insensitive (s : String) :
    (∀ v, Stage.from_str s = .ok v ↔ Stage.from_str (toLowercase s) = .ok v) ∧
    (∀ v, FpgaTarget.from_str s = .ok v ↔ FpgaTarget.from_str (toLowercase s) = .ok v) ∧
    Stage.from_str "PROD" = .ok .Prod ∧
    FpgaTarget.from_str "ZCU104-Nightly" = .ok .Zcu104Nightly := by
  refine ⟨?_, ?_, rfl, rfl⟩
  · intro v
    unfold Stage.from_str
    rw [toLowercase_idem]
    constructor <;> intro h <;> split at h <;> simp_all
  · intro v
    unfold FpgaTarget.from_str
    rw [toLowercase_idem]
    constructor <;> intro h <;> split at h <;> simp_all

theorem parsing_is_case_insensitive_witness :
    (Stage.from_str "PROD" = .ok .Prod ↔
      Stage.from_str (toLowercase "PROD") = .ok .Prod) ∧
    (FpgaTarget.from_str "ZCU104-Nightly" = .ok .Zcu104Nightly ↔
      FpgaTarget.from_str (toLowercase "ZCU104-Nightly") = .ok .Zcu104Nightly) ∧
    Stage.from_str "PROD" = .ok .Prod ∧
    FpgaTarget.from_str "ZCU104-Nightly" = .ok .Zcu104Nightly :=
  ⟨(parsing_is_case_insensitive "PROD").1 .Prod,
   (parsing_is_case_insensitive "ZCU104-Nightly").2.1 .Zcu104Nightly,
   (parsing_is_case_insensitive "PROD").2.2.1,
   (parsing_is_case_insensitive "ZCU104-Nightly").2.2.2⟩

/-- C8: building the authenticated client fails with an I/O error
exactly when reading the key file fails, fails with a key-parse error
exactly when the file bytes are not a valid RSA PEM signing key, and
otherwise returns a wrapper whose client is narrowed to the credential
installation id of the credential record; the installation id is not verified — for any
other id the construction succeeds just the same, with that id
installed. -/
theorem credential_resolver_errors_and_narrowing (env : GithubEnv) (info : CaliptraCiInfo) :
    (∀ e, env.fs_read info.key_path = .error e →
      OctocrabWrapper.new env info = .error (.ioError e)) ∧
    (∀ bytes e, env.fs_read info.key_path = .ok bytes →
      env.from_rsa_pem bytes = .error e →
      OctocrabWrapper.new env info = .error (.keyParseError e)) ∧
    (∀ bytes key, env.fs_read info.key_path = .ok bytes →
      env.from_rsa_pem bytes = .ok key →
      OctocrabWrapper.new env info = .ok
        { github_org_name := info.github_org_name,
          octocrab := { app_id := info.github_app_id, key := key,
                        installation_id := some info.github_installation_id } }) ∧
    (∀ n w, OctocrabWrapper.new env info = .ok w →
      ∃ w2, OctocrabWrapper.new env { info with github_installation_id := n } = .ok w2 ∧
        w2.octocrab.installation_id = some n) := by
  refine ⟨?_, ?_, ?_, ?_⟩
  · intro e he
    simp [OctocrabWrapper.new, he]
  · intro bytes e hf hp
    simp [OctocrabWrapper.new, hf, hp]
  · intro bytes key hf hp
    simp [OctocrabWrapper.new, hf, hp]
  · intro n w hw
    rcases hf : env.fs_read info.key_path with e | bytes
    · simp [OctocrabWrapper.new, hf] at hw
    · rcases hp : env.from_rsa_pem bytes with e | key
      · simp [OctocrabWrapper.new, hf, hp] at hw
      · refine ⟨{ github_org_name := info.github_org_name,
                  octocrab := { app_id := info.github_app_id, key := key,
                                installation_id := some n } }, ?_, rfl⟩
        simp [OctocrabWrapper.new, hf, hp]

/-- A concrete effects environment: one readable key file whose bytes
parse as a key, every other path unreadable. -/
def envProbe : GithubEnv :=
  { fs_read := fun p => if p = "key.pem" then .ok [1, 2, 3] else .error "No such file",
    from_rsa_pem := fun b => if b = [1, 2, 3] then .ok ⟨[7]⟩ else .error "InvalidKeyFormat" }

/-- The Carl credential record on the probe key path. -/
def carlInfo : CaliptraCiInfo :=
  { github_app_id := 1160975, github_installation_id := 61798278,
    github_org_name := "clundin25-testorg", key_path := "key.pem" }

theorem credential_resolver_errors_and_narrowing_witness :
    OctocrabWrapper.new envProbe { carlInfo with key_path := "missing.pem" } =
      .error (.ioError "No such file") ∧
    OctocrabWrapper.new envProbe carlInfo = .ok
      { github_org_name := "clundin25-testorg",
        octocrab := { app_id := 1160975, key := ⟨[7]⟩,
                      installation_id := some 61798278 } } :=
  ⟨(credential_resolver_errors_and_narrowing envProbe _).1 "No such file" (by rfl),
   (credential_resolver_errors_and_narrowing envProbe carlInfo).2.2.1 [1, 2, 3] ⟨[7]⟩
      (by rfl) (by rfl)⟩

/-- C9: the token exchange issues exactly one API request, carrying the
organization name of the wrapper, the supplied runner name, the label list,
and the hardcoded runner-group id 1, for every invocation; on success
the result is exactly the encoded JIT configuration field of the
response (other response fields are discarded), and on failure the
error of the API is returned to the caller unmodified. -/
theorem jit_exchange_single_call_contract (api : JitCall → Except String JitRunnerConfig)
    (w : OctocrabWrapper) (name : String) (labels : List String) :
    (OctocrabWrapper.runner_jit_token api w name labels).2 =
      [{ org := w.github_org_name, runner_name := name,
         runner_group_id := 1, labels := labels }] ∧
    (∀ e, api { org := w.github_org_name, runner_name := name,
                runner_group_id := 1, labels := labels } = .error e →
      (OctocrabWrapper.runner_jit_token api w name labels).1 = .error e) ∧
    (∀ cfg, api { org := w.github_org_name, runner_name := name,
                  runner_group_id := 1, labels := labels } = .ok cfg →
      (OctocrabWrapper.runner_jit_token api w name labels).1 =
        .ok cfg.encoded_jit_config) := by
  refine ⟨?_, ?_, ?_⟩
  · rcases h : api ⟨w.github_org_name, name, 1, labels⟩ with e | cfg <;>
      simp [OctocrabWrapper.runner_jit_token, h]
  · intro e he
    simp [OctocrabWrapper.runner_jit_token, he]
  · intro cfg hok
    simp [OctocrabWrapper.runner_jit_token, hok]

/-- A concrete API oracle: answers any group-1 request with a fixed
response, rejects everything else. -/
def apiProbe : JitCall → Except String JitRunnerConfig :=
  fun c => if c.runner_group_id = 1 then .ok ⟨"encoded-jit-blob", 9⟩ else .error "RunnerGroupNotFound"

/-- A concrete wrapper value. -/
def wrapperProbe : OctocrabWrapper :=
  { github_org_name := "clundin25-testorg",
    octocrab := { app_id := 1160975, key := ⟨[7]⟩, installation_id := some 61798278 } }

theorem jit_exchange_single_call_contract_witness :
    (OctocrabWrapper.runner_jit_token apiProbe wrapperProbe "runner-1" ["caliptra-fpga"]).2 =
      [{ org := "clundin25-testorg", runner_name := "runner-1",
         runner_group_id := 1, labels := ["caliptra-fpga"] }] ∧
    (OctocrabWrapper.runner_jit_token apiProbe wrapperProbe "runner-1" ["caliptra-fpga"]).1 =
      .ok "encoded-jit-blob" :=
  ⟨(jit_exchange_single_call_contract apiProbe wrapperProbe "runner-1" ["caliptra-fpga"]).1,
   (jit_exchange_single_call_contract apiProbe wrapperProbe "runner-1"
      ["caliptra-fpga"]).2.2 ⟨"encoded-jit-blob", 9⟩ (by rfl)⟩

/-- C6 counterexample: the claim says every failure exits with code 1,
but on the Staging stage (an invocation failure: the stage is recognized
and unimplemented) the process panics, which terminates it with exit
code 101, not 1 — though indeed with no token on stdout. -/
theorem process_exit_contract_counterexample :
    (mainRun argsStaging envProbe apiProbe (fun i => i) ⟨2026, 10, 12⟩).exit_code = 101 ∧
    (mainRun argsStaging envProbe apiProbe (fun i => i) ⟨2026, 10, 12⟩).panicked = true ∧
    (mainRun argsStaging envProbe apiProbe (fun i => i) ⟨2026, 10, 12⟩).exit_code ≠ 1 ∧
    (mainRun argsStaging envProbe apiProbe (fun i => i) ⟨2026, 10, 12⟩).stdout = [] :=
  ⟨rfl, rfl, by decide, rfl⟩

/-- C6 (amended): on the unimplemented Staging stage the process panics
(exit code 101 under the Rust runtime), printing a diagnostic to stderr
and no token to stdout; on a key I/O or key-parse failure, and on an API
failure, it exits with code 1, a diagnostic on stderr and no token on
stdout; on success it prints only the token to stdout and exits with
code 0.  (Argument parse failures are handled by the CLI library before
this logic runs and are outside the embedded source.) -/
theorem process_exit_contract (args : Args) (env : GithubEnv)
    (api : JitCall → Except String JitRunnerConfig) (rng : Nat → Nat) (today : NaiveDate) :
    (args.stage = .Staging →
      (mainRun args env api rng today).panicked = true ∧
      (mainRun args env api rng today).exit_code = 101 ∧
      (mainRun args env api rng today).stdout = [] ∧
      (mainRun args env api rng today).stderr ≠ []) ∧
    (∀ info, CaliptraCiInfo.fromArgs args = some info →
      (∀ err, OctocrabWrapper.new env info = .error err →
        mainRun args env api rng today =
          { exit_code := 1, stdout := [],
            stderr := ["Running for stage: " ++ stageDebug args.stage, credErrorMsg err],
            panicked := false }) ∧
      (∀ gh, OctocrabWrapper.new env info = .ok gh →
        (∀ e, api { org := gh.github_org_name,
                    runner_name := RunnerName.new args.fpga_target args.fpga_identifier
                      args.location rng today,
                    runner_group_id := 1,
                    labels := RunnerLabels.new args.fpga_target args.dry_run } = .error e →
          mainRun args env api rng today =
            { exit_code := 1, stdout := [],
              stderr := ["Running for stage: " ++ stageDebug args.stage,
                         "Failed to create runner config due to " ++ e],
              panicked := false }) ∧
        (∀ tok, api { org := gh.github_org_name,
                      runner_name := RunnerName.new args.fpga_target args.fpga_identifier
                        args.location rng today,
                      runner_group_id := 1,
                      labels := RunnerLabels.new args.fpga_target args.dry_run } = .ok tok →
          mainRun args env api rng today =
            { exit_code := 0, stdout := [tok.encoded_jit_config],
              stderr := ["Running for stage: " ++ stageDebug args.stage],
              panicked := false }))) := by
  constructor
  · intro hstage
    have hnone : CaliptraCiInfo.fromArgs args = none := by
      simp [CaliptraCiInfo.fromArgs, hstage]
    refine ⟨?_, ?_, ?_, ?_⟩ <;> simp [mainRun, hnone]
  · intro info hinfo
    constructor
    · intro err herr
      simp [mainRun, hinfo, herr]
    · intro gh hgh
      constructor
      · intro e he
        simp [mainRun, hinfo, hgh, OctocrabWrapper.runner_jit_token, he]
      · intro tok htok
        simp [mainRun, hinfo, hgh, OctocrabWrapper.runner_jit_token, htok]

theorem process_exit_contract_witness :
    mainRun argsCarl envProbe apiProbe (fun i => i) ⟨2026, 10, 12⟩ =
      { exit_code := 0, stdout := ["encoded-jit-blob"],
        stderr := ["Running for stage: Carl"], panicked := false } ∧
    (mainRun argsStaging envProbe apiProbe (fun i => i) ⟨2026, 10, 12⟩).exit_code = 101 :=
  ⟨(((process_exit_contract argsCarl envProbe apiProbe (fun i => i) ⟨2026, 10, 12⟩).2
        carlInfo (by rfl)).2 wrapperProbe (by rfl)).2
      ⟨"encoded-jit-blob", 9⟩ (by rfl),
   ((process_exit_contract argsStaging envProbe apiProbe (fun i => i) ⟨2026, 10, 12⟩).1
      rfl).2.1⟩

end CredTool
